import Mathlib

/-!
Shallow embedding of `src/tools/wix-light-wrapper/light_wrapper.rs`.

The program is a wrapper around the WiX linker `light.exe`: it resolves its
own path, derives the sibling path `light-real.exe`, prepends the flags
`-sval` and `-sacl` to the argument vector unless each is already present
(case-insensitive, whole-token), spawns the real linker and exits with the
child's exit code (fallback 1 when the child has no determinate code).

Strings are Lean `String`s; Rust's byte-wise `eq_ignore_ascii_case` is
modelled char-wise (UTF-8 encoding is injective and ASCII lowering never
touches non-ASCII bytes, so the two agree on equality).  Paths are lists of
components.  The effectful `main` is a pure function over an environment
record supplying the results of `env::current_exe()`, `Path::exists` and
`Command::status`.
-/

namespace LightWrapper

/-- `u8::to_ascii_lowercase`, lifted to `Char`: lowers only ASCII `A`..`Z`. -/
def asciiLower (c : Char) : Char :=
  if 65 ≤ c.toNat ∧ c.toNat ≤ 90 then Char.ofNat (c.toNat + 32) else c

/-- Rust `str::eq_ignore_ascii_case`: equality after ASCII-lowering each
character. -/
def eqIgnoreAsciiCase (a b : String) : Bool :=
  a.data.map asciiLower == b.data.map asciiLower

/-- The closure `has_flag` from `main` (line 35):
`args.iter().any(|a| a.eq_ignore_ascii_case(flag))`. -/
def hasFlag (flag : String) (args : List String) : Bool :=
  args.any fun a => eqIgnoreAsciiCase a flag

/-- Argument augmentation from `main` (lines 36-43): push `"-sval"` unless
present, push `"-sacl"` unless present, then append the incoming arguments. -/
def augment (incoming : List String) : List String :=
  (if hasFlag "-sval" incoming then [] else ["-sval"]) ++
    (if hasFlag "-sacl" incoming then [] else ["-sacl"]) ++ incoming

/-- A filesystem path, as its list of components. -/
abbrev Path := List String

/-- Rust `Path::parent`: none for the empty path, otherwise drop the final
component. -/
def pathParent (p : Path) : Option Path :=
  if p = [] then none else some p.dropLast

/-- Rust `Path::join` with a single file-name component. -/
def pathJoin (p : Path) (name : String) : Path := p ++ [name]

/-- The literal file name of the real linker (line 22). -/
def realExeName : String := "light-real.exe"

/-- `real_exe` (lines 19-22):
`current_exe.parent().unwrap_or_else(|| Path::new(".")).join("light-real.exe")`. -/
def realExePath (currentExe : Path) : Path :=
  pathJoin ((pathParent currentExe).getD ["."]) realExeName

/-- Rendering of a path for diagnostics, standing in for `Path::display`. -/
def pathDisplay (p : Path) : String := String.intercalate "/" p

/-- A child's exit status: `some n` when `status.code()` is `Some(n)`,
`none` when the child terminated without a determinate code. -/
abbrev ExitStatus := Option Int

/-- The ambient effects `main` consumes: the result of `env::current_exe()`
(with its error text on failure), the filesystem existence predicate, the
result of `Command::status` (error text on spawn failure), and the process
arguments with index 0 already dropped (`env::args().skip(1)`). -/
structure Env where
  currentExe : Except String Path
  pathExists : Path → Bool
  spawn : Path → List String → Except String ExitStatus
  argv : List String

/-- Observable outcome of a run of `main`: the process exit code, the lines
written to standard error, and the spawn attempted (target path and argument
vector), if any. -/
structure Outcome where
  exitCode : Int
  stderr : List String
  spawnedArgs : Option (Path × List String)
deriving DecidableEq

/-- `main` (lines 5-57) as a pure function of the environment. -/
def runMain (env : Env) : Outcome :=
  match env.currentExe with
  | .error e =>
      { exitCode := 1
        stderr := ["light wrapper: unable to get current exe path: " ++ e]
        spawnedArgs := none }
  | .ok cur =>
      let realExe := realExePath cur
      if !env.pathExists realExe then
        { exitCode := 1
          stderr := ["light wrapper: expected real WiX linker at '" ++
            pathDisplay realExe ++ "' but it does not exist"]
          spawnedArgs := none }
      else
        let args := augment env.argv
        match env.spawn realExe args with
        | .error e =>
            { exitCode := 1
              stderr := ["light wrapper: failed to start '" ++
                pathDisplay realExe ++ "': " ++ e]
              spawnedArgs := some (realExe, args) }
        | .ok status =>
            { exitCode := status.getD 1
              stderr := []
              spawnedArgs := some (realExe, args) }

end LightWrapper

open LightWrapper

/-! Helper lemmas about `hasFlag` and `augment`, shared by the claim
theorems below. -/

theorem hasFlag_append (f : String) (xs ys : List String) :
    hasFlag f (xs ++ ys) = (hasFlag f xs || hasFlag f ys) := by
  simp [hasFlag]

theorem hasFlag_cons (f x : String) (xs : List String) :
    hasFlag f (x :: xs) = (eqIgnoreAsciiCase x f || hasFlag f xs) := by
  simp [hasFlag]

theorem eqIgnore_sval_refl : eqIgnoreAsciiCase "-sval" "-sval" = true := by decide

theorem eqIgnore_sacl_refl : eqIgnoreAsciiCase "-sacl" "-sacl" = true := by decide

theorem hasFlag_sval_augment (V : List String) :
    hasFlag "-sval" (augment V) = true := by
  cases h1 : hasFlag "-sval" V
  · simp [augment, h1, hasFlag_append, hasFlag_cons, eqIgnore_sval_refl]
  · simp [augment, h1, hasFlag_append]

theorem hasFlag_sacl_augment (V : List String) :
    hasFlag "-sacl" (augment V) = true := by
  cases h2 : hasFlag "-sacl" V
  · simp [augment, h2, hasFlag_append, hasFlag_cons, eqIgnore_sacl_refl]
  · simp [augment, h2, hasFlag_append]

/-- C1: if the incoming argument vector contains neither `-sval` nor `-sacl`
under case-insensitive whole-token comparison, the augmented vector is
exactly `["-sval", "-sacl"]` followed by the original arguments, so its
length is the original length plus two. -/
theorem augment_of_neither_flag (V : List String)
    (h1 : hasFlag "-sval" V = false) (h2 : hasFlag "-sacl" V = false) :
    augment V = "-sval" :: "-sacl" :: V ∧
      (augment V).length = V.length + 2 := by
  simp [augment, h1, h2]

/-- Witness for C1 at the concrete vector `["foo.wixobj", "-out", "a.msi"]`. -/
theorem augment_of_neither_flag_witness :
    hasFlag "-sval" ["foo.wixobj", "-out", "a.msi"] = false ∧
    hasFlag "-sacl" ["foo.wixobj", "-out", "a.msi"] = false ∧
    (augment ["foo.wixobj", "-out", "a.msi"] =
        "-sval" :: "-sacl" :: ["foo.wixobj", "-out", "a.msi"] ∧
      (augment ["foo.wixobj", "-out", "a.msi"]).length =
        (["foo.wixobj", "-out", "a.msi"] : List String).length + 2) :=
  ⟨by decide, by decide,
    augment_of_neither_flag ["foo.wixobj", "-out", "a.msi"]
      (by decide) (by decide)⟩

/-- C2: if the incoming vector contains `-sval` (any case) but not `-sacl`,
the augmented vector is `["-sacl"]` followed by the original arguments, of
length one more; in particular on `["-sval", "foo.wixobj"]` the wrapper
spawns the real linker with exactly `["-sacl", "-sval", "foo.wixobj"]`. -/
theorem augment_of_sval_only (V : List String)
    (h1 : hasFlag "-sval" V = true) (h2 : hasFlag "-sacl" V = false) :
    (augment V = "-sacl" :: V ∧ (augment V).length = V.length + 1) ∧
      (runMain ⟨.ok ["C:", "wix", "light.exe"], fun _ => true,
          fun _ _ => .ok (some 0), ["-sval", "foo.wixobj"]⟩).spawnedArgs =
        some (["C:", "wix", "light-real.exe"],
          ["-sacl", "-sval", "foo.wixobj"]) := by
  refine ⟨⟨?_, ?_⟩, ?_⟩
  · simp [augment, h1, h2]
  · simp [augment, h1, h2]
  · decide

/-- Witness for C2 at the concrete vector `["-sval", "foo.wixobj"]`. -/
theorem augment_of_sval_only_witness :
    hasFlag "-sval" ["-sval", "foo.wixobj"] = true ∧
    hasFlag "-sacl" ["-sval", "foo.wixobj"] = false ∧
    ((augment ["-sval", "foo.wixobj"] = "-sacl" :: ["-sval", "foo.wixobj"] ∧
        (augment ["-sval", "foo.wixobj"]).length =
          (["-sval", "foo.wixobj"] : List String).length + 1) ∧
      (runMain ⟨.ok ["C:", "wix", "light.exe"], fun _ => true,
          fun _ _ => .ok (some 0), ["-sval", "foo.wixobj"]⟩).spawnedArgs =
        some (["C:", "wix", "light-real.exe"],
          ["-sacl", "-sval", "foo.wixobj"])) :=
  ⟨by decide, by decide,
    augment_of_sval_only ["-sval", "foo.wixobj"] (by decide) (by decide)⟩

/-- C3: if the incoming vector already contains both flags (any case, any
position), augmentation leaves it completely unchanged, same length. -/
theorem augment_of_both_flags (V : List String)
    (h1 : hasFlag "-sval" V = true) (h2 : hasFlag "-sacl" V = true) :
    augment V = V ∧ (augment V).length = V.length := by
  simp [augment, h1, h2]

/-- Witness for C3 at the concrete vector `["-SACL", "x.wixobj", "-sval"]`. -/
theorem augment_of_both_flags_witness :
    hasFlag "-sval" ["-SACL", "x.wixobj", "-sval"] = true ∧
    hasFlag "-sacl" ["-SACL", "x.wixobj", "-sval"] = true ∧
    (augment ["-SACL", "x.wixobj", "-sval"] = ["-SACL", "x.wixobj", "-sval"] ∧
      (augment ["-SACL", "x.wixobj", "-sval"]).length =
        (["-SACL", "x.wixobj", "-sval"] : List String).length) :=
  ⟨by decide, by decide,
    augment_of_both_flags ["-SACL", "x.wixobj", "-sval"]
      (by decide) (by decide)⟩

/-- C4: flag detection is case-insensitive and whole-token: `-SVAL` counts
as a present `-sval`, while `foo-sval` (the flag as a mere substring) does
not, and augmentation behaves accordingly. -/
theorem hasFlag_case_insensitive_whole_token :
    hasFlag "-sval" ["-SVAL"] = true ∧
    hasFlag "-sval" ["foo-sval"] = false ∧
    augment ["-SVAL"] = ["-sacl", "-SVAL"] ∧
    augment ["foo-sval"] = ["-sval", "-sacl", "foo-sval"] := by
  decide

/-- C5: when the real executable exists and the child runs, the wrapper's
exit code is exactly the child's exit code when it has one, and the fixed
fallback 1 when the child terminated without a determinate code. -/
theorem exit_code_propagation (cur : Path) (argv : List String)
    (st : ExitStatus) :
    (runMain ⟨.ok cur, fun _ => true, fun _ _ => .ok st, argv⟩).exitCode =
      match st with
      | some n => n
      | none => 1 := by
  cases st <;> simp [runMain]

/-- C6: when the derived real-executable path does not exist, the wrapper
exits with code 1, never attempts to spawn, and its single standard-error
line contains the attempted path. -/
theorem missing_real_exe_no_spawn (cur : Path) (argv : List String)
    (pe : Path → Bool) (sp : Path → List String → Except String ExitStatus)
    (h : pe (realExePath cur) = false) :
    (runMain ⟨.ok cur, pe, sp, argv⟩).exitCode = 1 ∧
    (runMain ⟨.ok cur, pe, sp, argv⟩).spawnedArgs = none ∧
    ∃ pre post, (runMain ⟨.ok cur, pe, sp, argv⟩).stderr =
      [pre ++ pathDisplay (realExePath cur) ++ post] := by
  refine ⟨?_, ?_, "light wrapper: expected real WiX linker at '",
    "' but it does not exist", ?_⟩ <;> simp [runMain, h]

/-- Witness for C6 with an absent real executable. -/
theorem missing_real_exe_no_spawn_witness :
    (fun _ => false : Path → Bool)
        (realExePath ["C:", "wix", "light.exe"]) = false ∧
    ((runMain ⟨.ok ["C:", "wix", "light.exe"], fun _ => false,
        fun _ _ => .ok (some 0), ["foo.wixobj"]⟩).exitCode = 1 ∧
      (runMain ⟨.ok ["C:", "wix", "light.exe"], fun _ => false,
        fun _ _ => .ok (some 0), ["foo.wixobj"]⟩).spawnedArgs = none ∧
      ∃ pre post, (runMain ⟨.ok ["C:", "wix", "light.exe"], fun _ => false,
          fun _ _ => .ok (some 0), ["foo.wixobj"]⟩).stderr =
        [pre ++ pathDisplay (realExePath ["C:", "wix", "light.exe"]) ++ post]) :=
  ⟨rfl, missing_real_exe_no_spawn ["C:", "wix", "light.exe"] ["foo.wixobj"]
    (fun _ => false) (fun _ _ => .ok (some 0)) rfl⟩

/-- C7: the real executable's path is the parent directory of the wrapper's
own path joined with the constant file name `light-real.exe`; when the self
path has no parent the current working directory `.` is used as base, and
the final component is always that constant. -/
theorem realExePath_derivation (cur : Path) :
    realExePath cur =
      (if cur = [] then ["."] else cur.dropLast) ++ [realExeName] ∧
    (realExePath cur).getLast? = some "light-real.exe" := by
  constructor
  · by_cases h : cur = [] <;> simp [realExePath, pathParent, pathJoin, h]
  · simp [realExePath, pathJoin, List.getLast?_concat, realExeName]

/-- C8: each fatal error — unresolvable self path, missing real executable,
child failing to start — produces exactly one human-readable standard-error
line (naming the operation and, where applicable, the path and the system
error text) and exit code 1. -/
theorem fatal_errors_diagnose_and_exit_1 (e1 e2 : String) (cur : Path)
    (argv : List String) :
    runMain ⟨.error e1, fun _ => true, fun _ _ => .ok (some 0), argv⟩ =
      ⟨1, ["light wrapper: unable to get current exe path: " ++ e1], none⟩ ∧
    runMain ⟨.ok cur, fun _ => false, fun _ _ => .ok (some 0), argv⟩ =
      ⟨1, ["light wrapper: expected real WiX linker at '" ++
        pathDisplay (realExePath cur) ++ "' but it does not exist"], none⟩ ∧
    runMain ⟨.ok cur, fun _ => true, fun _ _ => .error e2, argv⟩ =
      ⟨1, ["light wrapper: failed to start '" ++
          pathDisplay (realExePath cur) ++ "': " ++ e2],
        some (realExePath cur, augment argv)⟩ := by
  refine ⟨rfl, ?_, ?_⟩ <;> simp [runMain]

/-- C9: argument augmentation is idempotent, because every augmented vector
contains both enforced flags. -/
theorem augment_idempotent (V : List String) :
    augment (augment V) = augment V := by
  have h1 := hasFlag_sval_augment V
  have h2 := hasFlag_sacl_augment V
  generalize hW : augment V = W at h1 h2 ⊢
  simp [augment, h1, h2]

/-- C10: case-insensitivity covers only ASCII letters: arguments matching
the flags under full Unicode case folding but using U+017F LATIN SMALL
LETTER LONG S in place of `s` are treated as absent, so both flags are
still prepended. -/
theorem hasFlag_ascii_only_folding :
    hasFlag "-sval" ["-ſval"] = false ∧
    hasFlag "-sacl" ["-ſacl"] = false ∧
    augment ["-ſval", "-ſacl"] = ["-sval", "-sacl", "-ſval", "-ſacl"] := by
  decide
